import Mathlib

/-!
# Verification of gophpfpm's process supervisor

Shallow embedding of `process.go` from the gophpfpm repository: a descriptor
for a single php-fpm worker process, its config rendering (`Config`,
`SaveConfig`), path-convention derivation (`SetDatadir`, via Go's `path.Join`
and `path.Clean`), the `Start` control flow with its readiness race, the
`waitConn` polling loop, and `Stop`. Stateful and effectful Go code is
embedded by passing the OS's responses (pipe creation, spawn, dial outcomes,
disk writes) as explicit arguments and returning the updated descriptor plus
a record of the observable actions taken.
-/

set_option autoImplicit false

namespace Gophpfpm

/-- Embeds the relevant part of Go's `exec.Cmd`: the argument vector built by
`Start` and the OS process handle (`cmd.Process`), which is `nil` (here
`none`) until `cmd.Start()` succeeds. The handle is an opaque pid. -/
structure Cmd where
  Path : String
  Args : List String
  Process : Option Nat := none
deriving DecidableEq

/-- The `Process` descriptor from `process.go`: one pool of php-fpm.
Field defaults are Go's zero values (empty string / nil pointer). -/
structure Process where
  Exec : String := ""
  ConfigFile : String := ""
  Listen : String := ""
  PidFile : String := ""
  ErrorLog : String := ""
  cmd : Option Cmd := none
deriving DecidableEq

/-- `NewProcess` from `process.go`: sets `Exec`, leaves every other field at
its zero value. -/
def NewProcess (phpFpm : String) : Process :=
  { Exec := phpFpm }

/-- True iff the string is non-empty and consists only of decimal digits
(the `^\d+$` shape the spec's resolver singles out). -/
def isAllDigits (s : String) : Bool :=
  !s.data.isEmpty && s.data.all Char.isDigit

/-- Modelled from the spec: the repository's `Address()` resolver is not in
`src/` (only its test `TestProcess_Address` calls it). Spec section 4.1:
a listen spec that is a pure digit sequence resolves to (`tcp`, `":" ++ s`);
otherwise a spec containing `:` resolves to (`tcp`, unchanged); otherwise it
is a unix socket path, (`unix`, unchanged). -/
def Address (proc : Process) : String × String :=
  if isAllDigits proc.Listen then ("tcp", ":" ++ proc.Listen)
  else if proc.Listen.data.contains ':' then ("tcp", proc.Listen)
  else ("unix", proc.Listen)

/-- The (network, address) pair `waitConn` passes to `net.Dial` on every
attempt: `net.Dial("unix", proc.Listen)` in `process.go` — the transport is
the fixed literal `"unix"` and the target is the verbatim listen spec. -/
def waitConnDial (proc : Process) : String × String :=
  ("unix", proc.Listen)

/-! ## The go-ini configuration document

`Config` builds an `*ini.File` through go-ini's `Empty`, `NewSection` and
`NewKey`. An ini file is a sequence of named sections, each holding a
sequence of key/value pairs; `ini.Empty()` starts with the implicit
`DEFAULT` section (go-ini's `DefaultSection`), which renders to nothing
while it stays empty. -/

/-- An ini file: sections in insertion order, each a name with its keys in
insertion order. -/
abbrev IniFile := List (String × List (String × String))

/-- go-ini's `ini.Empty()`: only the implicit `DEFAULT` section, no keys. -/
def iniEmpty : IniFile := [("DEFAULT", [])]

/-- go-ini's `File.NewSection`: appends a fresh section unless the name is
already present. -/
def iniNewSection (f : IniFile) (name : String) : IniFile :=
  if f.any (fun s => s.1 = name) then f else f ++ [(name, [])]

/-- go-ini's `File.Section(sec).NewKey(key, val)`: appends the key to the
named section (every key `Config` writes is fresh). -/
def iniNewKey (f : IniFile) (sec key val : String) : IniFile :=
  f.map (fun s => if s.1 = sec then (s.1, s.2 ++ [(key, val)]) else s)

/-- The sections that appear in the rendered document: go-ini's writer emits
nothing for the implicit `DEFAULT` section while it has no keys. -/
def renderedSections (f : IniFile) : IniFile :=
  f.filter (fun s => s.1 ≠ "DEFAULT" ∨ s.2 ≠ [])

/-- `Config` from `process.go`, call for call: a `global` section with `pid`
and `error_log`, then a `www` section with `listen`, `pm = dynamic` and the
four fixed pool-manager tuning constants. -/
def Config (proc : Process) : IniFile :=
  let f := iniEmpty
  let f := iniNewSection f "global"
  let f := iniNewKey f "global" "pid" proc.PidFile
  let f := iniNewKey f "global" "error_log" proc.ErrorLog
  let f := iniNewSection f "www"
  let f := iniNewKey f "www" "listen" proc.Listen
  let f := iniNewKey f "www" "pm" "dynamic"
  let f := iniNewKey f "www" "pm.max_children" "5"
  let f := iniNewKey f "www" "pm.start_servers" "2"
  let f := iniNewKey f "www" "pm.min_spare_servers" "1"
  let f := iniNewKey f "www" "pm.max_spare_servers" "3"
  f

/-- Outcome of `(*ini.File).SaveTo`, the on-disk write performed by
`SaveConfig`; `process.go` never inspects it. -/
inductive DiskResult where
  | ok
  | ioError (msg : String)
deriving DecidableEq

set_option linter.unusedVariables false in
/-- `SaveConfig` from `process.go`: records the path in `ConfigFile`, then
calls `proc.Config().SaveTo(proc.ConfigFile)` whose error value is dropped
on the floor — the Go function has no return value at all, so the disk
outcome `disk` cannot influence the result. -/
def SaveConfig (proc : Process) (p : String) (disk : DiskResult) : Process :=
  { proc with ConfigFile := p }

/-! ## Go `path.Join` / `path.Clean`

`SetDatadir` derives the three path fields with Go's `path.Join`, which
concatenates its elements with `/` and then applies `path.Clean` (the
Plan 9 lexical cleaning algorithm): empty and `.` elements vanish, `..`
pops the preceding element (or is kept at the front of a relative path,
or dropped at the root of a rooted path), duplicate slashes collapse, and
an empty result becomes `.`. The embedding works on the character list of
the string. -/

/-- Splits a character list on `/`, keeping empty components, exactly like
Go's iteration over `/`-separated elements ("a//b" gives ["a", "", "b"]). -/
def splitSlash : List Char → List (List Char)
  | [] => [[]]
  | c :: cs =>
    match splitSlash cs with
    | [] => [[]]
    | g :: gs => if c = '/' then [] :: g :: gs else (c :: g) :: gs

/-- One step of `path.Clean` over the component stack (most recent first):
drops empty and `.` components, resolves `..` against the stack, and pushes
everything else. -/
def cleanPush (rooted : Bool) (stack : List (List Char)) (c : List Char) :
    List (List Char) :=
  if c = [] ∨ c = ['.'] then stack
  else if c = ['.', '.'] then
    match stack with
    | [] => if rooted then [] else [['.', '.']]
    | top :: rest => if top = ['.', '.'] then c :: stack else rest
  else c :: stack

/-- Reassembles components with single `/` separators. -/
def joinSlash : List (List Char) → List Char
  | [] => []
  | [g] => g
  | g :: gs => g ++ '/' :: joinSlash gs

/-- Go's `path.Clean` on a character list. -/
def pathCleanL (l : List Char) : List Char :=
  if l = [] then ['.']
  else
    let rooted := l.head? = some '/'
    let comps := ((splitSlash l).foldl (cleanPush rooted) []).reverse
    let out := joinSlash comps
    if rooted then '/' :: out
    else if out = [] then ['.']
    else out

/-- Go's `path.Clean`. -/
def pathClean (s : String) : String :=
  ⟨pathCleanL s.data⟩

/-- Go's `path.Join` restricted to the two arguments `SetDatadir` uses:
returns `""` when both elements are empty, otherwise joins the non-empty
elements with `/` and cleans the result. -/
def pathJoin (a b : String) : String :=
  if a.data = [] ∧ b.data = [] then ""
  else if a.data = [] then pathClean b
  else pathClean ⟨a.data ++ '/' :: b.data⟩

/-- `SetDatadir` from `process.go`: derives the pid-file, error-log and
listen paths from one base directory via `path.Join`. -/
def SetDatadir (proc : Process) (basepath : String) : Process :=
  { proc with
    PidFile := pathJoin basepath "phpfpm.pid"
    ErrorLog := pathJoin basepath "phpfpm.error_log"
    Listen := pathJoin basepath "phpfpm.sock" }

/-! ## `Start`: spawn, stream capture, readiness race

`Start` in `process.go` builds `proc.cmd`, captures the stdout and stderr
pipes, starts the OS process, and then blocks on
`select { case <-time.After(time.Second * 4): err = "time out"; case <-proc.waitConn(): }`.
The OS's responses are passed in as an `OSEnv`; the returned `StartResult`
carries the three Go return values (named returns `stdout, stderr, err`),
the updated descriptor, and flags recording which observable actions the
executed branch performed. -/

/-- The readiness ceiling: `time.After(time.Second * 4)`, in seconds. -/
def readinessCeiling : Nat := 4

/-- The probe's retry interval: `time.Sleep(time.Millisecond * 2)`, in
milliseconds. -/
def pollInterval : Nat := 2

deriving instance DecidableEq for Except

/-- The OS's responses to the calls `Start` makes, in program order:
`cmd.StdoutPipe()`, `cmd.StderrPipe()` (each a stream handle or an error),
`cmd.Start()` (a pid or an error), and whether `waitConn`'s probe obtains a
connection before the `readinessCeiling` timer fires. -/
structure OSEnv where
  stdoutPipe : Except String Nat
  stderrPipe : Except String Nat
  spawn : Except String Nat
  connWithin : Bool
deriving DecidableEq

/-- What one call to `Start` returns and does. `timerStarted` /
`probeStarted` record whether the `select` over `time.After` and
`waitConn()` was reached; `killed` records whether the branch killed or
released the spawned process (no branch of `Start` in `process.go`
contains any such call, so the faithful translation sets it only to
`false`). -/
structure StartResult where
  stdout : Option Nat
  stderr : Option Nat
  err : Option String
  proc : Process
  timerStarted : Bool
  probeStarted : Bool
  killed : Bool
deriving DecidableEq

/-- `Start` from `process.go`, branch for branch. Go's named return values
make the early returns explicit: a failed `StdoutPipe` returns before
`StderrPipe` is called, a failed `StderrPipe` still returns the captured
`stdout`, a failed `cmd.Start()` still returns both streams, and only when
all three succeed is the readiness `select` entered, where losing the race
against the 4-second timer sets `err` to `"time out"` and returns with the
process handle untouched. -/
def Start (proc : Process) (env : OSEnv) : StartResult :=
  let c : Cmd :=
    { Path := proc.Exec
      Args := [proc.Exec, "--fpm-config", proc.ConfigFile, "-F", "-n", "-e"]
      Process := none }
  let proc := { proc with cmd := some c }
  match env.stdoutPipe with
  | .error e =>
    { stdout := none, stderr := none, err := some e, proc := proc
      timerStarted := false, probeStarted := false, killed := false }
  | .ok so =>
    match env.stderrPipe with
    | .error e =>
      { stdout := some so, stderr := none, err := some e, proc := proc
        timerStarted := false, probeStarted := false, killed := false }
    | .ok se =>
      match env.spawn with
      | .error e =>
        { stdout := some so, stderr := some se, err := some e, proc := proc
          timerStarted := false, probeStarted := false, killed := false }
      | .ok pid =>
        let proc := { proc with cmd := some { c with Process := some pid } }
        if env.connWithin then
          { stdout := some so, stderr := some se, err := none, proc := proc
            timerStarted := true, probeStarted := true, killed := false }
        else
          { stdout := some so, stderr := some se, err := some "time out"
            proc := proc, timerStarted := true, probeStarted := true
            killed := false }

/-- The pid of the live OS process held by the descriptor after `Start`,
if any. -/
def runningPid (r : StartResult) : Option Nat :=
  r.proc.cmd.bind Cmd.Process

/-! ## The `waitConn` polling loop

The goroutine body in `waitConn` is
`for { if conn, err := net.Dial("unix", proc.Listen); err != nil { sleep 2ms } else { chanConn <- conn; break } }`.
Its execution is embedded as the trace of events produced when the `n`-th
dial attempt succeeds iff `dial n` — each attempt is a call to `net.Dial`
with the pair `waitConnDial proc`. The loop has no exit other than the
`break` after a successful send, so a run in which no attempt ever succeeds
never terminates; `fuel` bounds the observed portion of such a run. -/

/-- Observable events of the `waitConn` goroutine: a dial attempt, a send
of the obtained connection on `chanConn`, and the `break` ending the
loop. -/
inductive ProbeEvent where
  | attempt (n : Nat)
  | send (n : Nat)
  | brk
deriving DecidableEq

/-- The trace of the `waitConn` loop started at attempt index `i`, observed
for at most `fuel` iterations. -/
def waitConnLoop (dial : Nat → Bool) : Nat → Nat → List ProbeEvent
  | 0, _ => []
  | fuel + 1, i =>
    if dial i then [.attempt i, .send i, .brk]
    else .attempt i :: waitConnLoop dial fuel (i + 1)

/-- Is the event a send on `chanConn`? -/
def isSend : ProbeEvent → Bool
  | .send _ => true
  | _ => false

/-- Is the event a dial attempt? -/
def isAttempt : ProbeEvent → Bool
  | .attempt _ => true
  | _ => false

/-- Number of sends on `chanConn` in a trace. -/
def sendCount (tr : List ProbeEvent) : Nat :=
  (tr.filter isSend).length

/-- The events strictly after the first send in a trace (the whole trace
has no send iff this is computed as the tail of `[]`, i.e. `[]`). -/
def afterFirstSend (tr : List ProbeEvent) : List ProbeEvent :=
  (tr.dropWhile (fun e => !isSend e)).drop 1

/-- Does some dial among the `fuel` attempts starting at index `i`
succeed? -/
def anyDialWithin (dial : Nat → Bool) : Nat → Nat → Bool
  | 0, _ => false
  | fuel + 1, i => dial i || anyDialWithin dial fuel (i + 1)

/-! ## `Stop` -/

/-- The two signals `process.go` distinguishes in its comment on `Stop`:
`os.Interrupt` (what it sends) versus a kill. -/
inductive Sig where
  | interrupt
  | kill
deriving DecidableEq

/-- Outcome of `Stop`: either the nil-pointer dereference panic that Go
raises when `proc.cmd` (or `proc.cmd.Process`) is nil, or delivery of a
signal to the live process. -/
inductive StopResult where
  | panicNilHandle
  | signaled (s : Sig)
deriving DecidableEq

/-- `Stop` from `process.go`: `return proc.cmd.Process.Signal(os.Interrupt)`.
With no started process the chain dereferences a nil pointer and panics;
otherwise it delivers `os.Interrupt` (never a kill). -/
def Stop (proc : Process) : StopResult :=
  match proc.cmd with
  | none => .panicNilHandle
  | some c =>
    match c.Process with
    | none => .panicNilHandle
    | some _ => .signaled .interrupt

/-! ## Concrete environments used by the witnesses -/

/-- Both pipes and the spawn succeed, but the probe never connects within
the ceiling. -/
def envTimeoutA : OSEnv :=
  { stdoutPipe := .ok 1, stderrPipe := .ok 2, spawn := .ok 77,
    connWithin := false }

/-- Same readiness timeout with different stream handles. -/
def envTimeoutB : OSEnv :=
  { stdoutPipe := .ok 11, stderrPipe := .ok 12, spawn := .ok 99,
    connWithin := false }

/-- Capturing stdout fails immediately. -/
def envStdoutFail : OSEnv :=
  { stdoutPipe := .error "no pipe", stderrPipe := .ok 2, spawn := .ok 7,
    connWithin := true }

/-- Capturing stderr fails after stdout was captured. -/
def envStderrFail : OSEnv :=
  { stdoutPipe := .ok 1, stderrPipe := .error "no pipe", spawn := .ok 7,
    connWithin := true }

/-- Spawning the OS process fails after both captures. -/
def envSpawnFail : OSEnv :=
  { stdoutPipe := .ok 1, stderrPipe := .ok 2,
    spawn := .error "no such file", connWithin := true }

/-! ## Theorems -/

/-- Claim C7: for every descriptor, the document built by `Config` renders
exactly two sections; the pool-manager tuning keys are the fixed constants
`pm.max_children = 5`, `pm.start_servers = 2`, `pm.min_spare_servers = 1`,
`pm.max_spare_servers = 3` regardless of descriptor contents; and the
`listen`, `pid` and `error_log` keys equal the descriptor's `Listen`,
`PidFile` and `ErrorLog` fields verbatim. -/
theorem config_two_sections_fixed_tuning (proc : Process) :
    renderedSections (Config proc) =
      [("global", [("pid", proc.PidFile), ("error_log", proc.ErrorLog)]),
       ("www", [("listen", proc.Listen), ("pm", "dynamic"),
                ("pm.max_children", "5"), ("pm.start_servers", "2"),
                ("pm.min_spare_servers", "1"), ("pm.max_spare_servers", "3")])] ∧
    (renderedSections (Config proc)).length = 2 := by
  exact ⟨rfl, rfl⟩

/-- Claim C9: `SaveConfig` unconditionally records the given path in
`ConfigFile`, and the outcome of the disk write cannot influence its
result (the write's error is discarded and the Go function returns
nothing), so `ConfigFile` may reference a file that was never written. -/
theorem saveConfig_sets_path_ignores_disk (proc : Process) (p : String)
    (d : DiskResult) :
    (SaveConfig proc p d).ConfigFile = p ∧
    ∀ d2 : DiskResult, SaveConfig proc p d = SaveConfig proc p d2 :=
  ⟨rfl, fun _ => rfl⟩

/-- Claim C5: `Stop` with no started process fails with a null-handle
dereference rather than succeeding; on a started process it delivers the
interrupt signal, never a kill. -/
theorem stop_interrupt_never_kill (proc : Process) :
    (proc.cmd = none → Stop proc = .panicNilHandle) ∧
    (∀ c pid, proc.cmd = some c → c.Process = some pid →
      Stop proc = .signaled .interrupt ∧ Stop proc ≠ .signaled .kill) := by
  constructor
  · intro h
    simp [Stop, h]
  · intro c pid hc hp
    have h : Stop proc = .signaled .interrupt := by simp [Stop, hc, hp]
    refine ⟨h, ?_⟩
    rw [h]
    decide

/-- Witness for `stop_interrupt_never_kill`: a descriptor with no process
panics on a nil handle; one with a live process gets `os.Interrupt`. -/
theorem stop_interrupt_never_kill_witness :
    Stop {} = .panicNilHandle ∧
    Stop { cmd := some { Path := "/usr/sbin/php5-fpm", Args := [],
                         Process := some 42 } } = .signaled .interrupt :=
  ⟨(stop_interrupt_never_kill {}).1 rfl,
   ((stop_interrupt_never_kill _).2 _ 42 rfl rfl).1⟩

/-- Claim C2: when the spawn succeeds but no connection is obtained within
the readiness ceiling, `Start` returns the `"time out"` failure, performs
no kill or cleanup, and the descriptor still holds the live process
handle. -/
theorem start_timeout_leaves_process_running (proc : Process) (env : OSEnv)
    (so se pid : Nat)
    (h1 : env.stdoutPipe = .ok so) (h2 : env.stderrPipe = .ok se)
    (h3 : env.spawn = .ok pid) (h4 : env.connWithin = false) :
    (Start proc env).err = some "time out" ∧
    (Start proc env).killed = false ∧
    runningPid (Start proc env) = some pid := by
  simp [Start, runningPid, h1, h2, h3, h4]

/-- Witness for `start_timeout_leaves_process_running` at a concrete
environment. -/
theorem start_timeout_leaves_process_running_witness :
    (Start (NewProcess "/usr/sbin/php5-fpm") envTimeoutA).err
      = some "time out" ∧
    (Start (NewProcess "/usr/sbin/php5-fpm") envTimeoutA).killed = false ∧
    runningPid (Start (NewProcess "/usr/sbin/php5-fpm") envTimeoutA)
      = some 77 :=
  start_timeout_leaves_process_running _ _ 1 2 77 rfl rfl rfl rfl

/-- Claim C3: a failed stdout capture, stderr capture or OS spawn makes
`Start` return that failure at once, without starting the readiness timer
or the connection probe. -/
theorem start_failure_skips_readiness (proc : Process) (env : OSEnv) :
    (∀ e, env.stdoutPipe = .error e →
      (Start proc env).err = some e ∧ (Start proc env).timerStarted = false ∧
      (Start proc env).probeStarted = false) ∧
    (∀ so e, env.stdoutPipe = .ok so → env.stderrPipe = .error e →
      (Start proc env).err = some e ∧ (Start proc env).timerStarted = false ∧
      (Start proc env).probeStarted = false) ∧
    (∀ so se e, env.stdoutPipe = .ok so → env.stderrPipe = .ok se →
      env.spawn = .error e →
      (Start proc env).err = some e ∧ (Start proc env).timerStarted = false ∧
      (Start proc env).probeStarted = false) := by
  refine ⟨?_, ?_, ?_⟩ <;> intros <;> simp_all [Start]

/-- Witness for `start_failure_skips_readiness`: each of the three failure
points, at a concrete environment. -/
theorem start_failure_skips_readiness_witness :
    ((Start {} envStdoutFail).err = some "no pipe" ∧
      (Start {} envStdoutFail).timerStarted = false ∧
      (Start {} envStdoutFail).probeStarted = false) ∧
    ((Start {} envStderrFail).err = some "no pipe" ∧
      (Start {} envStderrFail).timerStarted = false ∧
      (Start {} envStderrFail).probeStarted = false) ∧
    ((Start {} envSpawnFail).err = some "no such file" ∧
      (Start {} envSpawnFail).timerStarted = false ∧
      (Start {} envSpawnFail).probeStarted = false) :=
  ⟨(start_failure_skips_readiness {} _).1 "no pipe" rfl,
   (start_failure_skips_readiness {} _).2.1 1 "no pipe" rfl rfl,
   (start_failure_skips_readiness {} _).2.2 1 2 "no such file" rfl rfl rfl⟩

/-- Claim C10: on a readiness timeout, `Start` still returns the captured
stdout and stderr streams alongside the `"time out"` error. -/
theorem start_timeout_returns_streams (proc : Process) (env : OSEnv)
    (so se pid : Nat)
    (h1 : env.stdoutPipe = .ok so) (h2 : env.stderrPipe = .ok se)
    (h3 : env.spawn = .ok pid) (h4 : env.connWithin = false) :
    (Start proc env).stdout = some so ∧
    (Start proc env).stderr = some se ∧
    (Start proc env).err = some "time out" := by
  simp [Start, h1, h2, h3, h4]

/-- Witness for `start_timeout_returns_streams` at a concrete
environment. -/
theorem start_timeout_returns_streams_witness :
    (Start {} envTimeoutB).stdout = some 11 ∧
    (Start {} envTimeoutB).stderr = some 12 ∧
    (Start {} envTimeoutB).err = some "time out" :=
  start_timeout_returns_streams _ _ 11 12 99 rfl rfl rfl rfl

/-- Claim C1 (refuted by the code): `waitConn` does not dial the resolved
(transport, target) of the listen spec — it always dials the fixed
`"unix"` transport with the verbatim listen string. At the tcp listen spec
`"127.0.0.1:9000"` the resolver yields transport `"tcp"`, yet the probe
dials `("unix", "127.0.0.1:9000")`. -/
theorem waitConn_fixed_unix_transport :
    waitConnDial { Listen := "127.0.0.1:9000" } = ("unix", "127.0.0.1:9000") ∧
    Address { Listen := "127.0.0.1:9000" } = ("tcp", "127.0.0.1:9000") ∧
    (waitConnDial { Listen := "127.0.0.1:9000" }).1 ≠
      (Address { Listen := "127.0.0.1:9000" }).1 := by
  decide

/-- Claim C6: the resolver totally classifies every listen specification:
a spec containing `:` (in particular every `"<ip>:<port>"`) resolves to
(`tcp`, unchanged); a pure digit sequence resolves to
(`tcp`, `":" ++ digits`); anything else without a colon resolves to
(`unix`, unchanged). -/
theorem address_resolves_all_forms (proc : Process) :
    (proc.Listen.data.contains ':' = true →
      Address proc = ("tcp", proc.Listen)) ∧
    (isAllDigits proc.Listen = true →
      Address proc = ("tcp", ":" ++ proc.Listen)) ∧
    (proc.Listen.data.contains ':' = false →
      isAllDigits proc.Listen = false →
      Address proc = ("unix", proc.Listen)) := by
  refine ⟨?_, ?_, ?_⟩
  · intro h
    have hmem : ':' ∈ proc.Listen.data := by
      simpa using h
    have hall : proc.Listen.data.all Char.isDigit = false := by
      rw [List.all_eq_false]
      exact ⟨':', hmem, by decide⟩
    have hdig : isAllDigits proc.Listen = false := by
      simp [isAllDigits, hall]
    simp only [Address, hdig, Bool.false_eq_true, if_false, h, if_true]
  · intro h
    simp [Address, h]
  · intro h1 h2
    simp only [Address, h2, Bool.false_eq_true, if_false, h1]

/-- Witness for `address_resolves_all_forms` at the four listen specs of
`TestProcess_Address`. -/
theorem address_resolves_all_forms_witness :
    Address { Listen := "192.168.123.456:12345" }
      = ("tcp", "192.168.123.456:12345") ∧
    Address { Listen := "12345" } = ("tcp", ":12345") ∧
    Address { Listen := "hello.sock" } = ("unix", "hello.sock") ∧
    Address { Listen := "/path/to/hello.sock" }
      = ("unix", "/path/to/hello.sock") :=
  ⟨(address_resolves_all_forms _).1 (by decide),
   (address_resolves_all_forms _).2.1 (by decide),
   (address_resolves_all_forms _).2.2 (by decide) (by decide),
   (address_resolves_all_forms _).2.2 (by decide) (by decide)⟩

/-- Claim C4: in every observed run of the `waitConn` loop, there is a send
on `chanConn` exactly when some dial attempt succeeds, never more than one;
and strictly after the first send the trace contains nothing but the
`break` that terminates the loop — no further sends and no further dial
attempts. -/
theorem waitConn_single_handoff (dial : Nat → Bool) (fuel start : Nat) :
    sendCount (waitConnLoop dial fuel start)
      = (if anyDialWithin dial fuel start = true then 1 else 0) ∧
    (afterFirstSend (waitConnLoop dial fuel start) = [] ∨
      afterFirstSend (waitConnLoop dial fuel start) = [ProbeEvent.brk]) := by
  induction fuel generalizing start with
  | zero =>
    simp [waitConnLoop, anyDialWithin, sendCount, afterFirstSend]
  | succ n ih =>
    cases hd : dial start with
    | true =>
      simp [waitConnLoop, anyDialWithin, sendCount, afterFirstSend, hd,
            isSend]
    | false =>
      have hloop : waitConnLoop dial (n + 1) start
          = ProbeEvent.attempt start :: waitConnLoop dial n (start + 1) := by
        simp [waitConnLoop, hd]
      have hany : anyDialWithin dial (n + 1) start
          = anyDialWithin dial n (start + 1) := by
        simp [anyDialWithin, hd]
      have hcount : sendCount (ProbeEvent.attempt start
          :: waitConnLoop dial n (start + 1))
          = sendCount (waitConnLoop dial n (start + 1)) := by
        simp [sendCount, isSend]
      have hafter : afterFirstSend (ProbeEvent.attempt start
          :: waitConnLoop dial n (start + 1))
          = afterFirstSend (waitConnLoop dial n (start + 1)) := by
        simp [afterFirstSend, isSend, List.dropWhile]
      rw [hloop, hany, hcount, hafter]
      exact ih (start + 1)

/-- With a non-empty first element, Go's `path.Join` is `path.Clean` of the
slash-joined concatenation. -/
theorem pathJoin_of_ne_empty (a b : String) (h : a ≠ "") :
    pathJoin a b = pathClean (a ++ "/" ++ b) := by
  have ha : a.data ≠ [] := by
    intro hnil
    exact h (String.ext (by rw [hnil]))
  have hdata : (a ++ "/" ++ b).data = a.data ++ '/' :: b.data := by
    rw [String.data_append, String.data_append, List.append_assoc]
    rfl
  unfold pathJoin
  rw [if_neg (by simp [ha]), if_neg ha]
  unfold pathClean
  congr 1
  show pathCleanL (a.data ++ '/' :: b.data) = pathCleanL (a ++ "/" ++ b).data
  rw [hdata]

/-- Claim C8 fails as stated: `SetDatadir` joins with Go's `path.Join`,
which cleans the result, so the base directory `"a//b"` yields the pid path
`"a/b/phpfpm.pid"`, not the byte-exact concatenation
`"a//b" ++ "/phpfpm.pid"`. -/
theorem setDatadir_cleans_double_slash :
    (SetDatadir {} "a//b").PidFile = "a/b/phpfpm.pid" ∧
    ("a/b/phpfpm.pid" : String) ≠ "a//b" ++ "/phpfpm.pid" := by
  decide

/-- Claim C8 (amended): for every non-empty base directory `D` on which
Go's path cleaning is the identity for the three derived paths — in
particular any ordinary directory path without duplicate slashes, `.` or
`..` artifacts or a trailing slash — `SetDatadir D` sets the pid file to
byte-exact `D ++ "/phpfpm.pid"`, the error log to
`D ++ "/phpfpm.error_log"` and the listen spec to `D ++ "/phpfpm.sock"`;
for other bases the result is `path.Join`'s cleaned form, so a trailing
slash is never duplicated. -/
theorem setDatadir_byte_exact_on_clean_base (D : String) (h0 : D ≠ "")
    (h1 : pathClean (D ++ "/phpfpm.pid") = D ++ "/phpfpm.pid")
    (h2 : pathClean (D ++ "/phpfpm.error_log") = D ++ "/phpfpm.error_log")
    (h3 : pathClean (D ++ "/phpfpm.sock") = D ++ "/phpfpm.sock")
    (proc : Process) :
    (SetDatadir proc D).PidFile = D ++ "/phpfpm.pid" ∧
    (SetDatadir proc D).ErrorLog = D ++ "/phpfpm.error_log" ∧
    (SetDatadir proc D).Listen = D ++ "/phpfpm.sock" := by
  have e1 : D ++ "/" ++ "phpfpm.pid" = D ++ "/phpfpm.pid" :=
    String.ext (by
      rw [String.data_append, String.data_append, String.data_append,
          List.append_assoc]
      rfl)
  have e2 : D ++ "/" ++ "phpfpm.error_log" = D ++ "/phpfpm.error_log" :=
    String.ext (by
      rw [String.data_append, String.data_append, String.data_append,
          List.append_assoc]
      rfl)
  have e3 : D ++ "/" ++ "phpfpm.sock" = D ++ "/phpfpm.sock" :=
    String.ext (by
      rw [String.data_append, String.data_append, String.data_append,
          List.append_assoc]
      rfl)
  refine ⟨?_, ?_, ?_⟩
  · show pathJoin D "phpfpm.pid" = D ++ "/phpfpm.pid"
    rw [pathJoin_of_ne_empty _ _ h0, e1, h1]
  · show pathJoin D "phpfpm.error_log" = D ++ "/phpfpm.error_log"
    rw [pathJoin_of_ne_empty _ _ h0, e2, h2]
  · show pathJoin D "phpfpm.sock" = D ++ "/phpfpm.sock"
    rw [pathJoin_of_ne_empty _ _ h0, e3, h3]

/-- Witness for `setDatadir_byte_exact_on_clean_base` at the clean base
directory `"/data"`. -/
theorem setDatadir_byte_exact_witness :
    (SetDatadir {} "/data").PidFile = "/data/phpfpm.pid" ∧
    (SetDatadir {} "/data").ErrorLog = "/data/phpfpm.error_log" ∧
    (SetDatadir {} "/data").Listen = "/data/phpfpm.sock" :=
  setDatadir_byte_exact_on_clean_base "/data" (by decide) (by decide)
    (by decide) (by decide) {}

end Gophpfpm
